import Mathlib

/-!
Shallow embedding of the chart-data normalizer in src/tools/finance/chart.ts.

JavaScript values are modelled by the inductive `JsValue`; numbers are exact
rationals plus NaN (`JsNum`).  Binary floating-point rounding, signed zero and
the infinities are not modelled: no claim below depends on them (where the
source could produce Infinity, e.g. parseFloat of the string "Infinity", the
model yields NaN and a doc comment records the deviation).  Objects are
association lists in key-insertion order; the JavaScript reordering of
integer-like keys is not modelled (no claim uses integer-like keys).
-/

/-- JavaScript number: NaN or a finite value, modelled as an exact rational. -/
inductive JsNum where
  | nan : JsNum
  | fin : ℚ → JsNum
deriving DecidableEq

/-- Global isNaN / Number.isNaN on an already-numeric value. -/
def JsNum.isNaN : JsNum → Bool
  | .nan => true
  | .fin _ => false

/-- Truthiness of a number: 0 and NaN are falsy, everything else truthy. -/
def JsNum.truthy : JsNum → Bool
  | .nan => false
  | .fin q => decide (q ≠ 0)

/-- Strict equality test against the number literal 0 (NaN === 0 is false). -/
def JsNum.eqZero : JsNum → Bool
  | .nan => false
  | .fin q => decide (q = 0)

/-- The JavaScript expression `n || 0`: n when truthy, else 0.  This is how
line 139 of chart.ts coerces a failed or zero parse of a string value field. -/
def jsOrZero (n : JsNum) : JsNum :=
  if n.truthy then n else .fin 0

/-- A JavaScript value as the normalizer can receive it. -/
inductive JsValue where
  | null : JsValue
  | undefined : JsValue
  | bool : Bool → JsValue
  | num : JsNum → JsValue
  | str : String → JsValue
  | arr : List JsValue → JsValue
  | obj : List (String × JsValue) → JsValue

/-- JavaScript truthiness.  Note that every object and every array (even the
empty ones) is truthy; null, undefined, false, 0, NaN and "" are falsy. -/
def jsTruthy : JsValue → Bool
  | .null => false
  | .undefined => false
  | .bool b => b
  | .num n => n.truthy
  | .str s => !s.isEmpty
  | .arr _ => true
  | .obj _ => true

/-- Value of a run of decimal digit characters. -/
def digitsVal (ds : List Char) : Nat :=
  ds.foldl (fun a c => a * 10 + (c.toNat - 48)) 0

/-- Exponent part of a float literal after the letter e: optional sign then
digits; a malformed exponent contributes 0 (parseFloat of "1e" is 1). -/
def parseExpPart (cs : List Char) : Int :=
  match cs with
  | '-' :: r =>
      if (r.takeWhile Char.isDigit).isEmpty then 0
      else -(digitsVal (r.takeWhile Char.isDigit) : Int)
  | '+' :: r =>
      if (r.takeWhile Char.isDigit).isEmpty then 0
      else (digitsVal (r.takeWhile Char.isDigit) : Int)
  | r =>
      if (r.takeWhile Char.isDigit).isEmpty then 0
      else (digitsVal (r.takeWhile Char.isDigit) : Int)

/-- JavaScript parseFloat: skip leading whitespace, optional sign, decimal
digits with optional fraction and exponent; NaN when no digit was read,
otherwise the value of the longest valid prefix.  The value is the exact
rational digits times ten to the signed exponent, assembled with integer
arithmetic and one mkRat.  The literal "Infinity" (which real parseFloat
maps to Infinity) is modelled as NaN; no claim exercises it. -/
def parseFloat (s : String) : JsNum :=
  let cs := s.toList.dropWhile (fun c => c = ' ' || c = '\t' || c = '\n' || c = '\r')
  let signRest : Int × List Char :=
    match cs with
    | '-' :: r => (-1, r)
    | '+' :: r => (1, r)
    | r => (1, r)
  let intPart := signRest.2.takeWhile Char.isDigit
  let cs2 := signRest.2.dropWhile Char.isDigit
  let fracRest : List Char × List Char :=
    match cs2 with
    | '.' :: r => (r.takeWhile Char.isDigit, r.dropWhile Char.isDigit)
    | r => ([], r)
  if intPart.isEmpty && fracRest.1.isEmpty then .nan
  else
    let e : Int :=
      (match fracRest.2 with
        | 'e' :: r => parseExpPart r
        | 'E' :: r => parseExpPart r
        | _ => 0) - fracRest.1.length
    let m : Int := signRest.1 * (digitsVal (intPart ++ fracRest.1) : Int)
    if 0 ≤ e then .fin (mkRat (m * ((10 ^ e.toNat : Nat) : Int)) 1)
    else .fin (mkRat m (10 ^ (-e).toNat))

/-- String() of a number: "NaN" for NaN, decimal digits for integers.  The
shortest-round-trip rendering of non-integer doubles is approximated by the
rational printer; no claim stringifies a non-integer number. -/
def jsNumToString (n : JsNum) : String :=
  match n with
  | .nan => "NaN"
  | .fin q => if q.den = 1 then toString q.num else toString q

/-- String() conversion of an arbitrary value, as used by line 97 and
line 111 of chart.ts (parseFloat(String(value))).  Arrays stringify as their
elements joined by commas with null and undefined elements rendered empty;
plain objects stringify as "[object Object]". -/
def jsToString : JsValue → String
  | .null => "null"
  | .undefined => "undefined"
  | .bool true => "true"
  | .bool false => "false"
  | .num n => jsNumToString n
  | .str s => s
  | .obj _ => "[object Object]"
  | .arr xs => String.intercalate ","
      (xs.attach.map (fun v =>
        match v with
        | ⟨.null, _⟩ => ""
        | ⟨.undefined, _⟩ => ""
        | ⟨w, _⟩ => jsToString w))
decreasing_by
  have h := List.sizeOf_lt_of_mem (by assumption : w ∈ xs)
  simp only [JsValue.arr.sizeOf_spec]
  omega

/-- Leap-year test of the Gregorian calendar. -/
def isLeapYear (y : Nat) : Bool :=
  (y % 4 == 0 && y % 100 != 0) || y % 400 == 0

/-- Length of a month. -/
def daysInMonth (y m : Nat) : Nat :=
  if m = 2 then (if isLeapYear y then 29 else 28)
  else if m = 4 || m = 6 || m = 9 || m = 11 then 30
  else 31

/-- The Date constructor of line 18 of chart.ts, restricted to the ISO
YYYY-MM-DD date-only form; the (month, day) pair is what the two format
calls of line 19 consume.  Strings of any other shape give an invalid Date,
hence none here.  The runtime also accepts further date formats and applies
the local time zone to date-only strings; the model takes the local zone as
UTC, and no claim uses a non-ISO date string that the runtime would accept. -/
def jsDateParse (s : String) : Option (Nat × Nat) :=
  match s.toList with
  | [y1, y2, y3, y4, '-', m1, m2, '-', d1, d2] =>
      if ([y1, y2, y3, y4, m1, m2, d1, d2].all Char.isDigit) then
        let y := digitsVal [y1, y2, y3, y4]
        let m := digitsVal [m1, m2]
        let d := digitsVal [d1, d2]
        if 1 ≤ m ∧ m ≤ 12 ∧ 1 ≤ d ∧ d ≤ daysInMonth y m then some (m, d) else none
      else none
  | _ => none

/-- English month abbreviations as toLocaleDateString with en-US and short
month renders them. -/
def monthAbbrev (m : Nat) : String :=
  (["Jan", "Feb", "Mar", "Apr", "May", "Jun", "Jul", "Aug",
    "Sep", "Oct", "Nov", "Dec"].get? (m - 1)).getD ""

/-- formatDateLabel of chart.ts lines 16-23.  The source wraps the body in
try/catch with a fallback of dateStr.slice(0, 10), but neither the Date
constructor nor toLocaleDateString nor getDate throws on an unparsable
string: the constructor yields an invalid Date, which formats as the string
"Invalid Date" while getDate() yields NaN, so the template produces
"Invalid Date NaN" and the catch branch is unreachable. -/
def formatDateLabel (dateStr : String) : String :=
  match jsDateParse dateStr with
  | some md => monthAbbrev md.1 ++ " " ++ toString md.2
  | none => "Invalid Date NaN"

/-- The Observation record (interface ChartDataPoint of chart.ts).  Optional
fields that a push site does not set are none; at the push site of lines
150-167 the source sets absent fields to undefined, which behaves the same
under every later property probe. -/
structure Obs where
  value : JsNum
  label : Option String := none
  date : Option String := none
  «open» : Option JsNum := none
  high : Option JsNum := none
  low : Option JsNum := none
  close : Option JsNum := none
deriving DecidableEq

/-- Property read obj[k]: the first binding of k, undefined when absent. -/
def jsGet (fields : List (String × JsValue)) (k : String) : JsValue :=
  (fields.lookup k).getD .undefined

/-- Object.entries, as applied on line 110 of chart.ts to a value cast to a
record: the bindings of an object, index-keyed elements of an array or
characters of a string, nothing for numbers and booleans.  Real
Object.entries throws a TypeError on null and undefined; that corner is
modelled as the empty list and no claim reaches it. -/
def jsEntries : JsValue → List (String × JsValue)
  | .obj fs => fs
  | .arr xs => xs.enum.map (fun p => (toString p.1, p.2))
  | .str s => s.toList.enum.map (fun p => (toString p.1, .str (String.mk [p.2])))
  | _ => []

/-- One entry of the flat key-to-magnitude loop of chart.ts lines 96-101
(and identically the segment loop of lines 110-115): take the value when it
is already a number, else parseFloat of its String() form, and drop the
entry when the result is NaN; the key becomes the label. -/
def flatEntryObs (e : String × JsValue) : Option Obs :=
  let n : JsNum :=
    match e.2 with
    | .num m => m
    | v => parseFloat (jsToString v)
  if n.isNaN then none else some { value := n, label := some e.1 }

/-- The first-entry test of line 95 of chart.ts: a number (NaN included), or
a string whose parseFloat is not NaN. -/
def isNumericFirst : JsValue → Bool
  | .num _ => true
  | .str s => !(parseFloat s).isNaN
  | _ => false

/-- The test of line 106 of chart.ts: truthy, typeof object, not an array;
only a plain object satisfies all three. -/
def isPlainObject : JsValue → Bool
  | .obj _ => true
  | _ => false

/-- Value of the first entry of an object, undefined when there is none
(entries[0][1] on line 93 of chart.ts). -/
def firstVal (fields : List (String × JsValue)) : JsValue :=
  ((fields.head?).map Prod.snd).getD .undefined

/-- Value of the last entry of an object (entries[entries.length - 1][1] on
lines 108-109 of chart.ts). -/
def lastVal (fields : List (String × JsValue)) : JsValue :=
  ((fields.getLast?).map Prod.snd).getD .undefined

/-- The non-array-object half of normalizeChartData, lines 87-119 of
chart.ts: with at least one entry, a numeric-looking first value turns every
entry into a key-labelled observation, an object first value flattens the
last entry only, anything else contributes nothing; the caller falls through
to the array-format error when the produced list is empty. -/
def objPathResult : List (String × JsValue) → List Obs
  | [] => []
  | first :: rest =>
      if isNumericFirst first.2 then (first :: rest).filterMap flatEntryObs
      else if isPlainObject first.2 then
        (jsEntries (lastVal (first :: rest))).filterMap flatEntryObs
      else []

/-- The value-extraction chain of chart.ts lines 138-144.  A value field
that holds any string stops the chain: parseFloat of it, coerced by the
JavaScript expression `parseFloat(obj.value) || 0` to 0 when the parse fails
or yields 0.  The later fields net_income, total_revenue, revenue and close
are accepted only when they hold a number; otherwise the chain ends in 0. -/
def extractValue (fields : List (String × JsValue)) : JsNum :=
  match jsGet fields "value" with
  | .num n => n
  | .str s => jsOrZero (parseFloat s)
  | _ =>
    match jsGet fields "net_income" with
    | .num n => n
    | _ =>
      match jsGet fields "total_revenue" with
      | .num n => n
      | _ =>
        match jsGet fields "revenue" with
        | .num n => n
        | _ =>
          match jsGet fields "close" with
          | .num n => n
          | _ => .fin 0

/-- The skip test of chart.ts lines 146-148: drop the element when the
extracted value is strictly equal to 0 and every recognized field is falsy.
A numeric 0 stored in a field is falsy, so an explicit zero value does not
keep the element. -/
def skipObjElem (fields : List (String × JsValue)) : Bool :=
  (extractValue fields).eqZero
    && !(jsTruthy (jsGet fields "value"))
    && !(jsTruthy (jsGet fields "net_income"))
    && !(jsTruthy (jsGet fields "total_revenue"))
    && !(jsTruthy (jsGet fields "revenue"))
    && !(jsTruthy (jsGet fields "close"))

/-- The label chain of chart.ts lines 152-159. -/
def extractLabel (fields : List (String × JsValue)) : Option String :=
  match jsGet fields "label" with
  | .str s => some s
  | _ =>
    match jsGet fields "report_period" with
    | .str s => some (formatDateLabel s)
    | _ =>
      match jsGet fields "date" with
      | .str s => some (formatDateLabel s)
      | _ =>
        match jsGet fields "fiscal_year", jsGet fields "quarter", jsGet fields "year" with
        | .num fy, .num q, _ => some ("Q" ++ jsNumToString q ++ " " ++ jsNumToString fy)
        | _, .num q, .num y => some ("Q" ++ jsNumToString q ++ " " ++ jsNumToString y)
        | .num fy, _, _ => some (jsNumToString fy)
        | _, _, .num y => some (jsNumToString y)
        | _, _, _ => none

/-- The date chain of chart.ts lines 160-162. -/
def extractDate (fields : List (String × JsValue)) : Option String :=
  match jsGet fields "date" with
  | .str s => some s
  | _ =>
    match jsGet fields "report_period" with
    | .str s => some s
    | _ => none

/-- An OHLC field of chart.ts lines 163-166: the number itself, parseFloat
of a string (which may be NaN), undefined otherwise. -/
def numFieldOpt (v : JsValue) : Option JsNum :=
  match v with
  | .num n => some n
  | .str s => some (parseFloat s)
  | _ => none

/-- One object element of the array loop, chart.ts lines 136-167. -/
def arrayObjObs (fields : List (String × JsValue)) : Option Obs :=
  if skipObjElem fields then none
  else some {
    value := extractValue fields
    label := extractLabel fields
    date := extractDate fields
    «open» := numFieldOpt (jsGet fields "open")
    high := numFieldOpt (jsGet fields "high")
    low := numFieldOpt (jsGet fields "low")
    close := numFieldOpt (jsGet fields "close") }

/-- One element of the array loop of chart.ts lines 126-169, paired with its
index in the input array.  A number element is pushed unconditionally (NaN
included); a string element is parsed and dropped when unparsable; an object
element goes through the extraction chains; an array element is a truthy
value of typeof object, so it takes the object branch, where none of the
probed properties exist; null, undefined and booleans are skipped. -/
def arrayElemObs (p : Nat × JsValue) : Option Obs :=
  match p.2 with
  | .num n => some { value := n, label := some ("Point " ++ toString (p.1 + 1)) }
  | .str s =>
      let n := parseFloat s
      if n.isNaN then none
      else some { value := n, label := some ("Point " ++ toString (p.1 + 1)) }
  | .obj fields => arrayObjObs fields
  | .arr _ => arrayObjObs []
  | _ => none

/-- normalizeChartData of chart.ts lines 79-176.  Failures (thrown Errors in
the source) are the error branch; the three message strings are the ones the
source throws.  An object input whose two special branches produce nothing
falls through to the array-format check and fails with its message, exactly
as the source control flow does. -/
def normalizeChartData (data : JsValue) : Except String (List Obs) :=
  if jsTruthy data = false then .error "Data is required"
  else
    match data with
    | .obj fields =>
        let r := objPathResult fields
        if r.isEmpty then .error "Data must be a non-empty array or object with numeric values"
        else .ok r
    | .arr items =>
        if items.isEmpty then .error "Data must be a non-empty array or object with numeric values"
        else
          let r := items.enum.filterMap arrayElemObs
          if r.isEmpty then .error "No valid numeric data found in input"
          else .ok r
    | _ => .error "Data must be a non-empty array or object with numeric values"

/-- The chart tool feeds each Observation back to the renderer as the plain
object the push sites build: the value field plus the optional fields that
were set.  Fields the model leaves none correspond to properties that are
absent or explicitly undefined, which behave identically under every probe
normalizeChartData performs. -/
def obsToJs (o : Obs) : JsValue :=
  .obj ([("value", .num o.value)]
    ++ (match o.label with | some s => [("label", JsValue.str s)] | none => [])
    ++ (match o.date with | some s => [("date", JsValue.str s)] | none => [])
    ++ (match o.«open» with | some n => [("open", JsValue.num n)] | none => [])
    ++ (match o.high with | some n => [("high", JsValue.num n)] | none => [])
    ++ (match o.low with | some n => [("low", JsValue.num n)] | none => [])
    ++ (match o.close with | some n => [("close", JsValue.num n)] | none => []))

/-- Test on a property value: a number of any kind, or a string (the two
types the value field stops the extraction chain on, chart.ts lines
138-139). -/
def isNumOrStr : JsValue → Bool
  | .num _ => true
  | .str _ => true
  | _ => false

/-- A recognized field, when it holds a number, holds a non-NaN number. -/
def fieldNumNotNaN (fields : List (String × JsValue)) (k : String) : Bool :=
  match jsGet fields k with
  | .num n => !n.isNaN
  | _ => true

/-- One array element carries no raw NaN where the array loop would copy it
unchecked: a NaN number element, or an object element holding NaN in one of
the five recognized value fields. -/
def arrayElemNoRawNaN : JsValue → Bool
  | .num n => !n.isNaN
  | .obj fields =>
      fieldNumNotNaN fields "value" && fieldNumNotNaN fields "net_income"
        && fieldNumNotNaN fields "total_revenue" && fieldNumNotNaN fields "revenue"
        && fieldNumNotNaN fields "close"
  | _ => true

/-- An input free of raw NaN in the positions the array loop copies
unchecked; non-array inputs are unconstrained, their paths always filter
with isNaN. -/
def noRawNaN : JsValue → Bool
  | .arr items => items.all arrayElemNoRawNaN
  | _ => true

/-- Every observation of a successful result has a non-NaN value (an error
result holds vacuously). -/
def valuesNoNaN : Except String (List Obs) → Bool
  | .error _ => true
  | .ok l => l.all (fun o => !o.value.isNaN)

theorem firstVal_cons (a : String × JsValue) (l : List (String × JsValue)) :
    firstVal (a :: l) = a.2 := rfl

theorem snd_mem_of_mem_enumFrom {α : Type} {p : Nat × α} {l : List α} {i : Nat}
    (h : p ∈ l.enumFrom i) : p.2 ∈ l := by
  induction l generalizing i with
  | nil => simp [List.enumFrom] at h
  | cons a as ih =>
    simp only [List.enumFrom, List.mem_cons] at h
    rcases h with h | h
    · subst h; exact List.mem_cons_self a as
    · exact List.mem_cons_of_mem a (ih h)

theorem flatEntryObs_not_nan (e : String × JsValue) (o : Obs)
    (h : flatEntryObs e = some o) : o.value.isNaN = false := by
  simp only [flatEntryObs] at h
  split at h
  · exact absurd h (by simp)
  · next hn => cases h; simpa using hn

theorem jsOrZero_not_nan (n : JsNum) : (jsOrZero n).isNaN = false := by
  unfold jsOrZero
  split
  · next h =>
    cases n
    · simp [JsNum.truthy] at h
    · rfl
  · rfl

theorem extractValue_not_nan (fields : List (String × JsValue))
    (h : arrayElemNoRawNaN (.obj fields) = true) :
    (extractValue fields).isNaN = false := by
  simp only [arrayElemNoRawNaN, Bool.and_eq_true] at h
  obtain ⟨⟨⟨⟨h1, h2⟩, h3⟩, h4⟩, h5⟩ := h
  simp only [fieldNumNotNaN] at h1 h2 h3 h4 h5
  unfold extractValue
  split
  · next heq => rw [heq] at h1; simpa using h1
  · exact jsOrZero_not_nan _
  · split
    · next heq => rw [heq] at h2; simpa using h2
    · split
      · next heq => rw [heq] at h3; simpa using h3
      · split
        · next heq => rw [heq] at h4; simpa using h4
        · split
          · next heq => rw [heq] at h5; simpa using h5
          · rfl

theorem arrayObjObs_not_nan (fields : List (String × JsValue)) (o : Obs)
    (hf : arrayElemNoRawNaN (.obj fields) = true)
    (h : arrayObjObs fields = some o) : o.value.isNaN = false := by
  simp only [arrayObjObs] at h
  split at h
  · exact absurd h (by simp)
  · cases h; exact extractValue_not_nan fields hf

theorem arrayElemObs_not_nan (p : Nat × JsValue) (o : Obs)
    (hf : arrayElemNoRawNaN p.2 = true)
    (h : arrayElemObs p = some o) : o.value.isNaN = false := by
  obtain ⟨i, v⟩ := p
  cases v with
  | num n => cases h; simpa [arrayElemNoRawNaN] using hf
  | str s =>
    simp only [arrayElemObs] at h
    split at h
    · exact absurd h (by simp)
    · next hn => cases h; simpa using hn
  | obj fields => exact arrayObjObs_not_nan fields o hf h
  | arr xs => exact absurd h (by simp [arrayElemObs, show arrayObjObs [] = none from rfl])
  | null => exact absurd h (by simp [arrayElemObs])
  | undefined => exact absurd h (by simp [arrayElemObs])
  | bool b => exact absurd h (by simp [arrayElemObs])

theorem objPathResult_not_nan (fields : List (String × JsValue)) (o : Obs)
    (h : o ∈ objPathResult fields) : o.value.isNaN = false := by
  unfold objPathResult at h
  split at h
  · simp at h
  · split at h
    · obtain ⟨e, _, he⟩ := List.mem_filterMap.mp h
      exact flatEntryObs_not_nan e o he
    · split at h
      · obtain ⟨e, _, he⟩ := List.mem_filterMap.mp h
        exact flatEntryObs_not_nan e o he
      · simp at h

theorem filterMap_arrayElemObs_num (i : Nat) (ns : List JsNum) :
    ((ns.map JsValue.num).enumFrom i).filterMap arrayElemObs
      = (ns.enumFrom i).map
          (fun p => { value := p.2, label := some ("Point " ++ toString (p.1 + 1)) }) := by
  induction ns generalizing i with
  | nil => rfl
  | cons n rest ih =>
    simp only [List.map_cons, List.enumFrom, List.filterMap_cons, arrayElemObs, ih]

/-- C1: the claim states that an array object element with an explicit
numeric value of 0 is retained while an element with no recognized field is
skipped, so that normalize of the array holding one of each returns exactly
one zero-valued Observation.  The code disagrees: the skip test of lines
146-148 probes field presence with JavaScript truthiness, a numeric 0 stored
in the value field is falsy, so the explicit-zero element is skipped too,
both elements are dropped, and the call throws the no-valid-data error
instead of succeeding.  (The intent of the guard -- skipping only zeros that
arose as defaults -- is visible in its very structure, and a string "0" in
the value field, being truthy, IS retained, so the numeric-zero case is a
slip.) -/
theorem normalize_explicit_zero_skipped :
    normalizeChartData (.arr [.obj [("value", .num (.fin 0))],
        .obj [("irrelevant", .num (.fin 1))]])
      = .error "No valid numeric data found in input" := rfl

/-- C2 counterexample: an array containing the number NaN succeeds and
returns an Observation whose value is NaN, refuting the claim that NaN is
never present in a returned Observation for any input.  The number branch of
the array loop (line 129-130 of chart.ts) pushes the element without any
isNaN test. -/
theorem normalize_nan_admitted :
    normalizeChartData (.arr [.num .nan])
      = .ok [{ value := .nan, label := some "Point 1" }]
      ∧ JsNum.nan.isNaN = true := ⟨rfl, rfl⟩

/-- C2 as amended: NaN is filtered wherever the normalizer itself parses or
screens a value (string elements, the flat key-to-magnitude path, the
nested-segments path, string value fields), so whenever the input contains
no raw NaN in the two positions the array loop copies unchecked -- a number
element, or a number stored in one of the five recognized value fields of an
object element -- every Observation of a successful result has a non-NaN
value. -/
theorem normalize_no_raw_nan_values (data : JsValue) (h : noRawNaN data = true) :
    valuesNoNaN (normalizeChartData data) = true := by
  unfold normalizeChartData
  split
  · rfl
  · cases data with
    | obj fields =>
      simp only
      split
      · rfl
      · simp only [valuesNoNaN, List.all_eq_true]
        intro o ho
        simpa using objPathResult_not_nan fields o ho
    | arr items =>
      simp only
      split
      · rfl
      · split
        · rfl
        · simp only [valuesNoNaN, List.all_eq_true]
          intro o ho
          obtain ⟨p, hp, hpo⟩ := List.mem_filterMap.mp ho
          have hmem : p.2 ∈ items := snd_mem_of_mem_enumFrom hp
          have hf : arrayElemNoRawNaN p.2 = true := by
            simp only [noRawNaN, List.all_eq_true] at h
            exact h p.2 hmem
          simpa using arrayElemObs_not_nan p o hf hpo
    | null => rfl
    | undefined => rfl
    | bool b => rfl
    | num n => rfl
    | str s => rfl

/-- C2 witness: a concrete NaN-free input on which the amended invariant is
discharged. -/
theorem normalize_no_raw_nan_values_app :
    valuesNoNaN (normalizeChartData (.arr [.num (.fin 1), .str "7.5",
        .obj [("value", .str "abc"), ("close", .num (.fin 3))]])) = true :=
  normalize_no_raw_nan_values _ rfl

/-- C3 counterexample: the claim says the first field of the chain that is a
number or numeric-parsable string wins, so a non-numeric string in the value
field should fall through to a numeric net_income.  In the code (lines
138-139) any string in the value field ends the chain with
parseFloat(obj.value) || 0, so the element yields value 0, not 75, and the
element is still retained because the string "abc" is truthy. -/
theorem normalize_string_value_blocks_chain :
    normalizeChartData (.arr [.obj [("value", .str "abc"),
        ("net_income", .num (.fin 75))]])
      = .ok [{ value := .fin 0 }] := rfl

/-- C3 as amended: the chain tries value, net_income, total_revenue,
revenue, close in that order, but a value field holding any string stops the
chain at parseFloat-or-0, and the four later fields are accepted only when
they hold numbers; when the value field holds neither a number nor a string
and net_income holds a nonzero number q, the element yields exactly one
Observation of value q. -/
theorem normalize_net_income_fallback (fields : List (String × JsValue)) (q : ℚ)
    (h1 : isNumOrStr (jsGet fields "value") = false)
    (h2 : jsGet fields "net_income" = .num (.fin q))
    (h3 : q ≠ 0) :
    ∃ o : Obs, normalizeChartData (.arr [.obj fields]) = .ok [o] ∧ o.value = .fin q := by
  have hval : extractValue fields = .fin q := by
    unfold extractValue
    cases hv : jsGet fields "value" <;> simp only [hv, h2] at h1 ⊢ <;>
      simp [isNumOrStr] at h1 ⊢
  have hskip : skipObjElem fields = false := by
    unfold skipObjElem
    rw [hval]
    simp [JsNum.eqZero, h3]
  refine ⟨Obs.mk (extractValue fields) (extractLabel fields) (extractDate fields)
      (numFieldOpt (jsGet fields "open")) (numFieldOpt (jsGet fields "high"))
      (numFieldOpt (jsGet fields "low")) (numFieldOpt (jsGet fields "close")), ?_, hval⟩
  simp [normalizeChartData, jsTruthy, List.enum, List.enumFrom, arrayElemObs,
    arrayObjObs, hskip]

/-- C3 witness: the amended fallback discharged on a concrete element whose
only recognized field is a numeric net_income. -/
theorem normalize_net_income_fallback_app :
    ∃ o : Obs, normalizeChartData (.arr [.obj [("net_income", .num (.fin 75))]])
      = .ok [o] ∧ o.value = .fin 75 :=
  normalize_net_income_fallback [("net_income", .num (.fin 75))] 75 rfl rfl (by norm_num)

/-- C4: the claim has two parts.  Totality holds: formatDateLabel maps every
string to a string (it is a total function of the embedding, mirroring that
no JavaScript step in it throws).  The fallback part is wrong on the code:
for an unparsable date the source is claimed to return the first 10
characters of the raw input, but the Date constructor never throws, so the
catch branch holding that fallback is dead and the rendered result is the
string "Invalid Date NaN"; the intended fallback visible in the catch makes
this a slip in the code.  Concretely the valid date "2024-01-15" renders as
"Jan 15" while the invalid "not-a-date" renders as "Invalid Date NaN", not
as its own first 10 characters "not-a-date". -/
theorem formatDateLabel_invalid_date_output :
    formatDateLabel "2024-01-15" = "Jan 15"
      ∧ formatDateLabel "not-a-date" = "Invalid Date NaN"
      ∧ "not-a-date".take 10 = "not-a-date" := ⟨rfl, rfl, rfl⟩

/-- C5: the claim states the output of a successful normalization, fed back
in, never raises.  It fails on the code for any output whose observations
all carry value 0: normalize of the flat map with key "A" and value 0
succeeds with one zero-valued Observation, but normalizing that output
again hits the falsy-presence skip test (lines 146-148 of chart.ts), the
element is dropped and the call throws the no-valid-data error.  The root
cause is the same explicit-zero slip as in the zero-retention claim. -/
theorem normalize_roundtrip_zero_fails :
    normalizeChartData (.obj [("A", .num (.fin 0))])
      = .ok [{ value := .fin 0, label := some "A" }]
    ∧ normalizeChartData
        (.arr ([({ value := JsNum.fin 0, label := some "A" } : Obs)].map obsToJs))
      = .error "No valid numeric data found in input" := ⟨rfl, rfl⟩

/-- C6: for a non-array object input whose first entry holds a plain object,
normalizeChartData flattens only the last entry (in insertion order) into
key-labelled observations, provided that flattening yields at least one
observation. -/
theorem normalize_nested_uses_last_entry (fields : List (String × JsValue))
    (h1 : isPlainObject (firstVal fields) = true)
    (h2 : ((jsEntries (lastVal fields)).filterMap flatEntryObs).isEmpty = false) :
    normalizeChartData (.obj fields)
      = .ok ((jsEntries (lastVal fields)).filterMap flatEntryObs) := by
  cases fields with
  | nil => simp [firstVal, isPlainObject] at h1
  | cons first rest =>
    rw [firstVal_cons] at h1
    have hnum : isNumericFirst first.2 = false := by
      cases hfv : first.2
      all_goals rw [hfv] at h1
      all_goals first
        | rfl
        | simp [isPlainObject] at h1
    have hres : objPathResult (first :: rest)
        = (jsEntries (lastVal (first :: rest))).filterMap flatEntryObs := by
      unfold objPathResult
      simp [hnum, h1]
    show (if (objPathResult (first :: rest)).isEmpty then
          (Except.error "Data must be a non-empty array or object with numeric values"
            : Except String (List Obs))
        else .ok (objPathResult (first :: rest)))
      = .ok ((jsEntries (lastVal (first :: rest))).filterMap flatEntryObs)
    rw [hres, h2]
    rfl

/-- C6 witness: the concrete two-period, two-segment input of the claim
yields exactly the flattening of the second period. -/
theorem normalize_nested_uses_last_entry_app :
    normalizeChartData (.obj [("2024-01-31", .obj [("A", .num (.fin 10)), ("B", .num (.fin 20))]),
        ("2024-02-28", .obj [("A", .num (.fin 15)), ("B", .num (.fin 25))])])
      = .ok [{ value := .fin 15, label := some "A" }, { value := .fin 25, label := some "B" }] :=
  normalize_nested_uses_last_entry
    [("2024-01-31", .obj [("A", .num (.fin 10)), ("B", .num (.fin 20))]),
     ("2024-02-28", .obj [("A", .num (.fin 15)), ("B", .num (.fin 25))])] rfl rfl

/-- C7: a non-empty array of numbers normalizes to one Observation per
element, in input order, with 1-based labels Point 1, Point 2, and so on. -/
theorem normalize_numeric_array_points (ns : List JsNum) (h : ns ≠ []) :
    normalizeChartData (.arr (ns.map JsValue.num))
      = .ok (ns.enum.map
          (fun p => { value := p.2, label := some ("Point " ++ toString (p.1 + 1)) })) := by
  obtain ⟨n, rest, rfl⟩ := List.exists_cons_of_ne_nil h
  show (if (((n :: rest).map JsValue.num).enum.filterMap arrayElemObs).isEmpty then
        (Except.error "No valid numeric data found in input" : Except String (List Obs))
      else .ok (((n :: rest).map JsValue.num).enum.filterMap arrayElemObs))
    = .ok ((n :: rest).enum.map
        (fun p => { value := p.2, label := some ("Point " ++ toString (p.1 + 1)) }))
  rw [List.enum, filterMap_arrayElemObs_num]
  rfl

/-- C7 witness: the two-number array normalizes to Point 1 and Point 2 in
order. -/
theorem normalize_numeric_array_points_app :
    normalizeChartData (.arr [.num (.fin 3), .num (.fin 4)])
      = .ok [{ value := .fin 3, label := some "Point 1" },
             { value := .fin 4, label := some "Point 2" }] :=
  normalize_numeric_array_points [.fin 3, .fin 4] (by simp)

/-- C8: null input, the empty array, the empty object and an array whose
only element has no recognized value field all fail with the corresponding
error of the source (never an empty success). -/
theorem normalize_invalid_inputs_fail :
    normalizeChartData .null = .error "Data is required"
    ∧ normalizeChartData (.arr [])
        = .error "Data must be a non-empty array or object with numeric values"
    ∧ normalizeChartData (.obj [])
        = .error "Data must be a non-empty array or object with numeric values"
    ∧ normalizeChartData (.arr [.obj [("foo", .str "bar")]])
        = .error "No valid numeric data found in input" := ⟨rfl, rfl, rfl, rfl⟩

/-- C9: every falsy input (null, undefined, false, 0, NaN, the empty
string) fails immediately with the data-required error of line 81 of
chart.ts, before any shape detection. -/
theorem normalize_falsy_data_required (v : JsValue) (h : jsTruthy v = false) :
    normalizeChartData v = .error "Data is required" := by
  unfold normalizeChartData
  rw [h]
  rfl

/-- C9 witness: the number NaN is falsy and is rejected with the
data-required error. -/
theorem normalize_falsy_data_required_app :
    normalizeChartData (.num .nan) = .error "Data is required" :=
  normalize_falsy_data_required (.num .nan) rfl

/-- C10: the default Point label is computed from the index in the original
input array, not from the position among retained observations: with an
unparsable string at index 0, the number 5 at index 1 yields the single
Observation labelled Point 2. -/
theorem normalize_point_label_original_index :
    normalizeChartData (.arr [.str "abc", .num (.fin 5)])
      = .ok [{ value := .fin 5, label := some "Point 2" }] := rfl
